import Mathlib

/-!
# Shallow embedding of the gocommerce authentication core

This file embeds the authentication and authorization core of the
gocommerce repository (auth-service, api-gateway middleware and handlers,
user-service) as executable Lean definitions, and proves or refutes the
spec's claims about it.

Modelling decisions (uniform across the file):

* Machine time is an explicit `Nat` parameter (`now`, seconds since epoch);
  the Go code reads `time.Now()` implicitly.
* The bcrypt primitive (`golang.org/x/crypto/bcrypt`) is modelled as a
  perfect salted hash: `bcryptCompareHashAndPassword h p` succeeds exactly
  when `h` was produced by `bcryptGenerateFromPassword p`.  The >72-byte
  password failure mode of the real library is not modelled.
* The HMAC-SHA256 MAC used by `jwt.SigningMethodHS256` is modelled as a
  perfect MAC: the signature value is the pair (signed claims, signing
  secret), so a signature verifies exactly when it was computed over the
  same claim set with the same secret.
* The PostgreSQL stores are modelled as in-memory lists of records plus a
  `failing` flag that makes every query return a store error (the store
  being unreachable).  Row timestamps (`created_at`, `updated_at`,
  `last_login`) carry no claim content and are omitted from the records.
* Go errors are modelled by `Except`; `errors.New s` becomes
  `AuthErr.msg s`, and an error propagated untouched from the database
  driver becomes `AuthErr.storeError`.
-/

/-- An account row of the auth-service store
(`auth-service/internal/models.User`; the `created_at` / `last_login`
timestamp columns are omitted: no modelled operation reads them). -/
structure User where
  id : String
  email : String
  password : String
  name : String
  deriving DecidableEq, Repr

/-- Result of one store call: the row data, or a driver error
(the store being unreachable). -/
inductive StoreRead (α : Type) where
  | ok (a : α)
  | storeError
  deriving DecidableEq, Repr

/-- The auth-service user store.  `users` is the table content, `nextId`
seeds `uuid.New()`, and `failing` models the database being unreachable
(every query returns a driver error). -/
structure Repo where
  users : List User
  nextId : Nat
  failing : Bool
  deriving DecidableEq, Repr

/-- The id `uuid.New().String()` hands out for seed `n`. -/
def genId (n : Nat) : String := "uuid-" ++ toString n

/-- `PostgresUserRepository.GetUserByEmail`: first row with this email,
`none` on `sql.ErrNoRows`, a driver error when the store is down. -/
def Repo.GetUserByEmail (repo : Repo) (email : String) : StoreRead (Option User) :=
  if repo.failing then .storeError
  else .ok (repo.users.find? (fun u => u.email == email))

/-- `PostgresUserRepository.CreateUser`: assigns a fresh uuid to the row
and inserts it; returns the stored row and the updated store. -/
def Repo.CreateUser (repo : Repo) (user : User) : StoreRead (User × Repo) :=
  if repo.failing then .storeError
  else
    let stored := { user with id := genId repo.nextId }
    .ok (stored, { repo with users := repo.users ++ [stored], nextId := repo.nextId + 1 })

/-- A Go error value as the auth service produces them: `msg s` is
`errors.New s`, `storeError` is an error returned untouched from the
repository layer. -/
inductive AuthErr where
  | msg (s : String)
  | storeError
  deriving DecidableEq, Repr

/-- `bcrypt.GenerateFromPassword`, modelled as a perfect hash (see header). -/
def bcryptGenerateFromPassword (password : String) : String :=
  "bcrypt-hash:" ++ password

/-- `bcrypt.CompareHashAndPassword`: true exactly when the hash was
generated from the password. -/
def bcryptCompareHashAndPassword (hash password : String) : Bool :=
  hash == bcryptGenerateFromPassword password

/-- The claim set the auth service puts in a JWT: the `user_id` claim
(`none` models the claim being absent or not a string) and the `exp`
claim in epoch seconds. -/
structure Claims where
  userId : Option String
  exp : Nat
  deriving DecidableEq, Repr

/-- An HS256 signature, modelled as a perfect MAC: the value records the
claim set it was computed over and the secret it was computed with. -/
def hmacSign (claims : Claims) (secret : String) : Claims × String :=
  (claims, secret)

/-- A JWT string as the verifier sees it: either not parseable as a
three-segment JWT at all, or a claim set together with the signature
segment. -/
inductive Token where
  | malformed (raw : String)
  | signed (claims : Claims) (sig : Claims × String)
  deriving DecidableEq, Repr

/-- `jwt.Parse` with a keyfunc returning `secret`: fails on a malformed
token, on a signature mismatch, and on an `exp` claim not in the future.
On success returns the claim set. -/
def jwtParse (tok : Token) (secret : String) (now : Nat) : Except AuthErr Claims :=
  match tok with
  | .malformed _ => .error (.msg "token is malformed")
  | .signed claims sig =>
    if sig ≠ hmacSign claims secret then .error (.msg "signature is invalid")
    else if claims.exp ≤ now then .error (.msg "token has invalid claims: token is expired")
    else .ok claims

/-- `AuthService.Register` (auth_service.go:26): duplicate-email check,
bcrypt hash, insert; returns the fresh account id and the updated store. -/
def AuthService.Register (repo : Repo) (email password name : String) :
    Except AuthErr String × Repo :=
  match repo.GetUserByEmail email with
  | .storeError => (.error .storeError, repo)
  | .ok (some _) => (.error (.msg "email already registered"), repo)
  | .ok none =>
    let hashedPassword := bcryptGenerateFromPassword password
    match repo.CreateUser { id := "", email := email, password := hashedPassword, name := name } with
    | .storeError => (.error .storeError, repo)
    | .ok (newUser, repo') => (.ok newUser.id, repo')

/-- `AuthService.Login` (auth_service.go:59): a store error and a missing
row are collapsed into one branch (`if err != nil || user == nil`), then
the bcrypt check; on success mints an HS256 token with `user_id` and a
24-hour `exp`. -/
def AuthService.Login (jwtSecret : String) (now : Nat) (repo : Repo)
    (email password : String) : Except AuthErr Token :=
  match repo.GetUserByEmail email with
  | .storeError => .error (.msg "invalid credentials")
  | .ok none => .error (.msg "invalid credentials")
  | .ok (some user) =>
    if bcryptCompareHashAndPassword user.password password then
      let claims : Claims := { userId := some user.id, exp := now + 24 * 3600 }
      .ok (.signed claims (hmacSign claims jwtSecret))
    else .error (.msg "invalid credentials")

/-- `AuthService.ValidateToken` (auth_service.go:92): parse and verify the
token, then extract the `user_id` claim as a string. -/
def AuthService.ValidateToken (jwtSecret : String) (now : Nat) (tok : Token) :
    Except AuthErr String :=
  match jwtParse tok jwtSecret now with
  | .error e => .error e
  | .ok claims =>
    match claims.userId with
    | some userIDStr => .ok userIDStr
    | none => .error (.msg "Invalid token claims")

/-- `AuthErr` rendered as Go's `err.Error()` string. -/
def AuthErr.toMessage : AuthErr → String
  | .msg s => s
  | .storeError => "store error"

/-- `pb.ValidateTokenResponse`: the auth handler's reply to the gateway. -/
structure ValidateTokenResponse where
  valid : Bool
  userId : String
  err : String
  deriving DecidableEq, Repr

/-- Result of one gRPC call from the gateway: the reply, or a transport
failure (callee unreachable). -/
inductive GrpcResult (α : Type) where
  | ok (a : α)
  | transportError
  deriving DecidableEq, Repr

/-- What the gateway middleware does with one request: write an error
status, or attach the verified user id to the context and invoke the
downstream handler. -/
inductive GateResult where
  | reject (status : Nat) (body : String)
  | forward (userId : String)
  deriving DecidableEq, Repr

/-- Go's `strings.HasPrefix`, character-wise on the string's data (the
source strings are ASCII, so byte-wise and character-wise agree). -/
def goHasPrefix (s pre : String) : Bool := pre.data.isPrefixOf s.data

/-- Go's `strings.TrimSpace`: drop whitespace from both ends. -/
def goTrimSpace (s : String) : String :=
  ⟨((s.data.dropWhile Char.isWhitespace).reverse.dropWhile Char.isWhitespace).reverse⟩

/-- Drop the first `n` characters; `goDropChars s pre.length` is Go's
`strings.TrimPrefix s pre` under the guarantee that `pre` is a prefix. -/
def goDropChars (s : String) (n : Nat) : String := ⟨s.data.drop n⟩

/-- The `"Bearer "` scheme constant of the middleware. -/
def bearerScheme : String := "Bearer "

/-- `AuthMiddleware` (api-gateway/internal/middleware/auth.go:20).
`validate` is the gRPC client call to the auth service; `authHeader` is
the `Authorization` header (`""` when absent, as `Header.Get` returns). -/
def AuthMiddleware (validate : String → GrpcResult ValidateTokenResponse)
    (authHeader : String) : GateResult :=
  if authHeader == "" then .reject 401 "Authorization header required"
  else if ¬ goHasPrefix authHeader bearerScheme then
    .reject 401 "Authorization header must start with \x27Bearer \x27"
  else
    let token := goTrimSpace (goDropChars authHeader bearerScheme.length)
    if token == "" then .reject 401 "Token cannot be empty"
    else
      match validate token with
      | .transportError => .reject 500 "Failed to validate token"
      | .ok resp =>
        if ¬ resp.valid then .reject 401 ("Invalid token: " ++ resp.err)
        else .forward resp.userId

/-- `authorizeUserAccess` (gateway user handler): the Resource Authorizer.
`requestedID` is the `{id}` path parameter, `authenticatedID` the context
value the middleware attached (`""` when absent). -/
def authorizeUserAccess (requestedID authenticatedID : String) : Except String String :=
  if authenticatedID == "" then .error "no authenticated user found"
  else if requestedID != authenticatedID then
    .error "forbidden: cannot access other users\x27 data"
  else .ok requestedID

/-- A profile row of the user-service store (user-service
`models.User`; timestamps are omitted, the soft-delete marker
`deleted_at` is kept as a Boolean). -/
structure Profile where
  id : String
  email : String
  name : String
  phone : String
  deleted : Bool
  deriving DecidableEq, Repr

/-- The user-service profile store (`nextId` seeds `uuid.New()` for rows
inserted without an id; `failing` models the database being down). -/
structure ProfileRepo where
  profiles : List Profile
  nextId : Nat
  failing : Bool
  deriving DecidableEq, Repr

/-- user-service `PostgresUserRepository.CreateUser`: generates an id only
when none was provided, then inserts. -/
def ProfileRepo.CreateUser (repo : ProfileRepo) (user : Profile) :
    StoreRead (Profile × ProfileRepo) :=
  if repo.failing then .storeError
  else
    let stored := if user.id == "" then { user with id := genId repo.nextId } else user
    .ok (stored,
      { repo with profiles := repo.profiles ++ [stored], nextId := repo.nextId + 1 })

/-- user-service `PostgresUserRepository.GetUserByID`: first live
(`deleted_at IS NULL`) row with this id. -/
def ProfileRepo.GetUserByID (repo : ProfileRepo) (userID : String) :
    StoreRead (Option Profile) :=
  if repo.failing then .storeError
  else .ok (repo.profiles.find? (fun p => p.id == userID && !p.deleted))

/-- user-service `PostgresUserRepository.UpdateUser`:
`UPDATE users SET name = $1, phone = $2 WHERE id = $4`. -/
def ProfileRepo.UpdateUser (repo : ProfileRepo) (user : Profile) :
    StoreRead ProfileRepo :=
  if repo.failing then .storeError
  else .ok { repo with
    profiles := repo.profiles.map
      (fun p => if p.id == user.id then { p with name := user.name, phone := user.phone } else p) }

/-- `UserService.CreateUser` (user_service.go:20): requires email and
name, then inserts the profile row. -/
def UserService.CreateUser (repo : ProfileRepo) (userID email name phone : String) :
    Except String Profile × ProfileRepo :=
  if email == "" then (.error "email is required", repo)
  else if name == "" then (.error "name is required", repo)
  else
    let user : Profile :=
      { id := userID, email := email, name := name, phone := phone, deleted := false }
    match repo.CreateUser user with
    | .storeError => (.error "store error", repo)
    | .ok (stored, repo') => (.ok stored, repo')

/-- `UserService.UpdateUser` (user_service.go:65): loads the profile, then
overwrites both `Name` and `Phone` with the given values unconditionally
and persists the row. -/
def UserService.UpdateUser (repo : ProfileRepo) (userID name phone : String) :
    Except String Profile × ProfileRepo :=
  if userID == "" then (.error "user ID is required", repo)
  else
    match repo.GetUserByID userID with
    | .storeError => (.error "store error", repo)
    | .ok none => (.error "user not found", repo)
    | .ok (some user) =>
      let user' := { user with name := name, phone := phone }
      match repo.UpdateUser user' with
      | .storeError => (.error "store error", repo)
      | .ok repo' => (.ok user', repo')

/-- `pb.CreateUserResponse` / `pb.UpdateUserResponse` payload: the profile
(absent on failure) and an error string (`""` on success). -/
structure UserServiceResponse where
  user : Option Profile
  error : String
  deriving DecidableEq, Repr

/-- user-service gRPC `UserHandler.CreateUser`: wraps the service result,
putting the error text in the `Error` field rather than failing the call. -/
def UserHandler.CreateUser (repo : ProfileRepo) (userId email name phone : String) :
    UserServiceResponse × ProfileRepo :=
  match UserService.CreateUser repo userId email name phone with
  | (.error e, repo') => ({ user := none, error := e }, repo')
  | (.ok u, repo') => ({ user := some u, error := "" }, repo')

/-- user-service gRPC `UserHandler.UpdateUser`: wraps the service result
the same way. -/
def UserHandler.UpdateUser (repo : ProfileRepo) (userId name phone : String) :
    UserServiceResponse × ProfileRepo :=
  match UserService.UpdateUser repo userId name phone with
  | (.error e, repo') => ({ user := none, error := e }, repo')
  | (.ok u, repo') => ({ user := some u, error := "" }, repo')

/-- An error returned by a gRPC auth handler: a service error passed
through, a transport failure of the outbound mirror call, or
`errors.New(createUserResp.Error)`. -/
inductive HandlerErr where
  | svc (e : AuthErr)
  | transport
  | msg (s : String)
  deriving DecidableEq, Repr

/-- `HandlerErr` rendered as Go's `err.Error()` string. -/
def HandlerErr.toMessage : HandlerErr → String
  | .svc e => e.toMessage
  | .transport => "transport error"
  | .msg s => s

/-- `pb.RegisterResponse`. -/
structure RegisterResponse where
  userId : String
  message : String
  deriving DecidableEq, Repr

/-- `pb.LoginResponse`: note the token is the only populated field. -/
structure LoginResponse where
  token : Token
  userId : String
  name : String
  deriving DecidableEq, Repr

/-- gRPC `AuthHandler.Register` (the handler wired in main, with the user
client): credential registration, then the Identity Mirror call.
`mirrorTransportFails` models the outbound gRPC call itself failing. -/
def AuthHandler.Register (repo : Repo) (prepo : ProfileRepo) (mirrorTransportFails : Bool)
    (email password name : String) :
    Except HandlerErr RegisterResponse × Repo × ProfileRepo :=
  match AuthService.Register repo email password name with
  | (.error e, repo') => (.error (.svc e), repo', prepo)
  | (.ok userID, repo') =>
    if mirrorTransportFails then (.error .transport, repo', prepo)
    else
      match UserHandler.CreateUser prepo userID email name "" with
      | (createUserResp, prepo') =>
        if createUserResp.error ≠ "" then (.error (.msg createUserResp.error), repo', prepo')
        else
          (.ok { userId := userID, message := "User registered successfully" }, repo', prepo')

/-- gRPC `AuthHandler.Login`: delegates to the service and returns the
token with `UserId` and `Name` set to the empty string. -/
def AuthHandler.Login (jwtSecret : String) (now : Nat) (repo : Repo)
    (email password : String) : Except HandlerErr LoginResponse :=
  match AuthService.Login jwtSecret now repo email password with
  | .error e => .error (.svc e)
  | .ok token => .ok { token := token, userId := "", name := "" }

/-- gRPC `AuthHandler.ValidateToken`: never fails the call; failures are
reported through the `Valid` / `Error` fields. -/
def AuthHandler.ValidateToken (jwtSecret : String) (now : Nat) (tok : Token) :
    ValidateTokenResponse :=
  match AuthService.ValidateToken jwtSecret now tok with
  | .error e => { valid := false, userId := "", err := e.toMessage }
  | .ok userID => { valid := true, userId := userID, err := "" }

/-- An HTTP response: a successful JSON body of type `β` with its status,
or an `http.Error` text with its status. -/
inductive HttpResult (β : Type) where
  | ok (status : Nat) (body : β)
  | err (status : Nat) (msg : String)
  deriving DecidableEq, Repr

/-- Gateway HTTP `AuthHandler.Register` (POST /api/v1/auth/register),
from the decoded JSON body onward: the emptiness check, then the gRPC
call; any gRPC error maps to status 500. -/
def HttpAuth.Register (repo : Repo) (prepo : ProfileRepo) (mirrorTransportFails : Bool)
    (email password name : String) :
    HttpResult RegisterResponse × Repo × ProfileRepo :=
  if email == "" || name == "" || password == "" then
    (.err 400 "Email,name and password are required", repo, prepo)
  else
    match AuthHandler.Register repo prepo mirrorTransportFails email password name with
    | (.error e, repo', prepo') =>
      (.err 500 ("Registration failed: " ++ e.toMessage), repo', prepo')
    | (.ok resp, repo', prepo') => (.ok 201 resp, repo', prepo')

/-- Gateway HTTP `AuthHandler.Login` (POST /api/v1/auth/login), from the
decoded JSON body onward: the emptiness check, then the gRPC call; any
gRPC error maps to status 401. -/
def HttpAuth.Login (jwtSecret : String) (now : Nat) (repo : Repo)
    (email password : String) : HttpResult LoginResponse :=
  if email == "" || password == "" then
    .err 400 "Email and password are required"
  else
    match AuthHandler.Login jwtSecret now repo email password with
    | .error e => .err 401 ("Login failed: " ++ e.toMessage)
    | .ok resp => .ok 200 resp

/-- The gateway's JSON user body (`UserResponse`). -/
structure UserResponse where
  id : String
  email : String
  name : String
  phone : String
  deriving DecidableEq, Repr

/-- Gateway HTTP `UserHandler.UpdateUser` (PUT /api/v1/users/:id), from
the decoded JSON body onward: Resource Authorizer, the
at-least-one-field check, then the gRPC update call.
`transportFails` models the user service being unreachable. -/
def HttpUser.UpdateUser (prepo : ProfileRepo) (transportFails : Bool)
    (requestedID authenticatedID name phone : String) :
    HttpResult UserResponse × ProfileRepo :=
  match authorizeUserAccess requestedID authenticatedID with
  | .error e => (.err 403 e, prepo)
  | .ok requestedUserID =>
    if name == "" && phone == "" then
      (.err 400 "At least one field (name or phone) must be provided", prepo)
    else if transportFails then
      (.err 500 "Failed to update user: transport error", prepo)
    else
      match UserHandler.UpdateUser prepo requestedUserID name phone with
      | (grpcResp, prepo') =>
        if grpcResp.error ≠ "" then (.err 404 grpcResp.error, prepo')
        else
          match grpcResp.user with
          | some u =>
            (.ok 200 { id := u.id, email := u.email, name := u.name, phone := u.phone }, prepo')
          | none =>
            -- dead branch: the gRPC handler never returns an empty error
            -- together with an absent user (the Go code would nil-deref here)
            (.err 500 "nil user", prepo')

example :
    (AuthService.Register { users := [], nextId := 0, failing := false } "a@b" "pw" "A").1
      = .ok "uuid-0" := rfl

example :
    AuthService.Login "s" 5
      { users := [{ id := "uuid-0", email := "a@b",
                    password := bcryptGenerateFromPassword "pw", name := "A" }],
        nextId := 1, failing := false } "a@b" "pw"
      = .ok (.signed ⟨some "uuid-0", 5 + 24 * 3600⟩ (⟨some "uuid-0", 5 + 24 * 3600⟩, "s")) := rfl

/-- The row `AuthService.Register` inserts for these inputs, with the id
`CreateUser` assigns from seed `n`. -/
def registeredUser (n : Nat) (email password name : String) : User :=
  { id := genId n, email := email,
    password := bcryptGenerateFromPassword password, name := name }

theorem find?_append_singleton {α : Type} (p : α → Bool) (l : List α) (a : α)
    (hl : l.find? p = none) (ha : p a = true) : (l ++ [a]).find? p = some a := by
  induction l with
  | nil => simp [List.find?, ha]
  | cons x xs ih =>
    cases hx : p x with
    | true => exact absurd hl (by simp [List.find?_cons, hx])
    | false =>
      simp only [List.find?_cons, hx] at hl
      simp only [List.cons_append, List.find?_cons, hx]
      exact ih hl

/-- **C1.** For every valid input triple — the email not yet registered
and the store reachable — `Register` followed by `Login` with the same
credentials succeeds, and `ValidateToken` on the minted token yields
exactly the account id `Register` returned. -/
theorem c1_register_login_verify_roundtrip
    (jwtSecret : String) (now : Nat) (repo : Repo) (email password name : String)
    (hhealthy : repo.failing = false)
    (hfresh : repo.users.find? (fun u => u.email == email) = none) :
    ∃ (accountId : String) (repo' : Repo) (tok : Token),
      AuthService.Register repo email password name = (.ok accountId, repo') ∧
      AuthService.Login jwtSecret now repo' email password = .ok tok ∧
      AuthService.ValidateToken jwtSecret now tok = .ok accountId := by
  obtain ⟨users, nextId, failing⟩ := repo
  simp only at hhealthy hfresh
  subst hhealthy
  refine ⟨genId nextId,
    { users := users ++ [registeredUser nextId email password name],
      nextId := nextId + 1, failing := false },
    (.signed ⟨some (genId nextId), now + 24 * 3600⟩
      (hmacSign ⟨some (genId nextId), now + 24 * 3600⟩ jwtSecret)), ?_, ?_, ?_⟩
  · simp [AuthService.Register, Repo.GetUserByEmail, hfresh, Repo.CreateUser, registeredUser]
  · simp [AuthService.Login, Repo.GetUserByEmail, hfresh, registeredUser,
      bcryptCompareHashAndPassword]
  · simp [AuthService.ValidateToken, jwtParse, hmacSign]

/-- Witness for C1 at a concrete registration against the empty store. -/
theorem c1_witness :
    ∃ (accountId : String) (repo' : Repo) (tok : Token),
      AuthService.Register { users := [], nextId := 0, failing := false }
        "alice@example.com" "Secr3t" "Alice" = (.ok accountId, repo') ∧
      AuthService.Login "topsecret" 1000 repo' "alice@example.com" "Secr3t" = .ok tok ∧
      AuthService.ValidateToken "topsecret" 1000 tok = .ok accountId :=
  c1_register_login_verify_roundtrip "topsecret" 1000
    { users := [], nextId := 0, failing := false } "alice@example.com" "Secr3t" "Alice"
    rfl rfl

/-- **C2.** `Login` with an unknown email and `Login` with a known email
but wrong password fail with the very same error value — the same
`errors.New` kind and the same caller-visible message,
`invalid credentials` — so the two causes are indistinguishable. -/
theorem c2_login_failures_indistinguishable
    (jwtSecret : String) (nowA nowB : Nat) (repoA repoB : Repo)
    (emailA passwordA emailB passwordB : String) (u : User)
    (hA : repoA.failing = false)
    (hunknown : repoA.users.find? (fun v => v.email == emailA) = none)
    (hB : repoB.failing = false)
    (hknown : repoB.users.find? (fun v => v.email == emailB) = some u)
    (hwrong : bcryptCompareHashAndPassword u.password passwordB = false) :
    AuthService.Login jwtSecret nowA repoA emailA passwordA
        = .error (.msg "invalid credentials") ∧
    AuthService.Login jwtSecret nowB repoB emailB passwordB
        = .error (.msg "invalid credentials") := by
  constructor
  · simp [AuthService.Login, Repo.GetUserByEmail, hA, hunknown]
  · simp [AuthService.Login, Repo.GetUserByEmail, hB, hknown, hwrong]

/-- Witness for C2: unknown email against the empty store, wrong password
against a store holding one account. -/
theorem c2_witness :
    AuthService.Login "s" 0 { users := [], nextId := 0, failing := false }
        "ghost@example.com" "pw" = .error (.msg "invalid credentials") ∧
    AuthService.Login "s" 0
        { users := [{ id := "u1", email := "alice@example.com",
                      password := bcryptGenerateFromPassword "right", name := "Alice" }],
          nextId := 1, failing := false }
        "alice@example.com" "wrong" = .error (.msg "invalid credentials") :=
  c2_login_failures_indistinguishable "s" 0 0
    { users := [], nextId := 0, failing := false }
    { users := [{ id := "u1", email := "alice@example.com",
                  password := bcryptGenerateFromPassword "right", name := "Alice" }],
      nextId := 1, failing := false }
    "ghost@example.com" "pw" "alice@example.com" "wrong"
    { id := "u1", email := "alice@example.com",
      password := bcryptGenerateFromPassword "right", name := "Alice" }
    rfl rfl rfl rfl (by decide)

/-- **C3.** `ValidateToken` fails on a structurally malformed token, on a
signature not computed over these claims with the process secret
(tampered, or signed with a different secret), and on an `exp` not in the
future even when the signature is valid; and whenever it succeeds, the
token is well-formed, correctly signed, unexpired, and the returned id is
the bound `user_id` claim. -/
theorem c3_validateToken_spec (jwtSecret : String) (now : Nat) :
    (∀ raw, ∃ e, AuthService.ValidateToken jwtSecret now (.malformed raw) = .error e) ∧
    (∀ (claims : Claims) (sig : Claims × String), sig ≠ hmacSign claims jwtSecret →
      ∃ e, AuthService.ValidateToken jwtSecret now (.signed claims sig) = .error e) ∧
    (∀ (claims : Claims) (sig : Claims × String), claims.exp ≤ now →
      ∃ e, AuthService.ValidateToken jwtSecret now (.signed claims sig) = .error e) ∧
    (∀ (tok : Token) (uid : String),
      AuthService.ValidateToken jwtSecret now tok = .ok uid →
      ∃ claims : Claims, tok = .signed claims (hmacSign claims jwtSecret) ∧
        now < claims.exp ∧ claims.userId = some uid) := by
  refine ⟨?_, ?_, ?_, ?_⟩
  · intro raw
    exact ⟨.msg "token is malformed", rfl⟩
  · intro claims sig hsig
    refine ⟨.msg "signature is invalid", ?_⟩
    simp [AuthService.ValidateToken, jwtParse, hsig]
  · intro claims sig hexp
    by_cases hsig : sig = hmacSign claims jwtSecret
    · refine ⟨.msg "token has invalid claims: token is expired", ?_⟩
      simp [AuthService.ValidateToken, jwtParse, hsig, hexp]
    · refine ⟨.msg "signature is invalid", ?_⟩
      simp [AuthService.ValidateToken, jwtParse, hsig]
  · intro tok uid h
    cases tok with
    | malformed raw => simp [AuthService.ValidateToken, jwtParse] at h
    | signed claims sig =>
      by_cases hsig : sig = hmacSign claims jwtSecret
      · by_cases hexp : claims.exp ≤ now
        · simp [AuthService.ValidateToken, jwtParse, hsig, hexp] at h
        · refine ⟨claims, by rw [hsig], by omega, ?_⟩
          cases huid : claims.userId with
          | none => simp [AuthService.ValidateToken, jwtParse, hsig, hexp, huid] at h
          | some s =>
            simp [AuthService.ValidateToken, jwtParse, hsig, hexp, huid] at h
            exact congrArg some h
      · simp [AuthService.ValidateToken, jwtParse, hsig] at h

/-- Witness for C3: a malformed token, a token signed with a different
secret, an expired token, and a successfully verified one. -/
theorem c3_witness :
    (∃ e, AuthService.ValidateToken "s" 10 (.malformed "zzz") = .error e) ∧
    (∃ e, AuthService.ValidateToken "s" 10
        (.signed ⟨some "u1", 100⟩ (hmacSign ⟨some "u1", 100⟩ "other")) = .error e) ∧
    (∃ e, AuthService.ValidateToken "s" 10
        (.signed ⟨some "u1", 5⟩ (hmacSign ⟨some "u1", 5⟩ "s")) = .error e) ∧
    (∃ claims : Claims,
      (Token.signed ⟨some "u1", 100⟩ (hmacSign ⟨some "u1", 100⟩ "s"))
          = .signed claims (hmacSign claims "s") ∧
        10 < claims.exp ∧ claims.userId = some "u1") :=
  ⟨(c3_validateToken_spec "s" 10).1 "zzz",
   (c3_validateToken_spec "s" 10).2.1 ⟨some "u1", 100⟩ (hmacSign ⟨some "u1", 100⟩ "other")
     (by decide),
   (c3_validateToken_spec "s" 10).2.2.1 ⟨some "u1", 5⟩ (hmacSign ⟨some "u1", 5⟩ "s")
     (by decide),
   (c3_validateToken_spec "s" 10).2.2.2
     (.signed ⟨some "u1", 100⟩ (hmacSign ⟨some "u1", 100⟩ "s")) "u1" rfl⟩

/-- **C4.** The Request Gate rejects with 401 on a missing header, on a
header without the `Bearer ` scheme, on a token empty after trimming, and
on a verifier reply reporting the token invalid; it rejects with 500 when
the verifier call itself fails; and only on verification success does it
attach the verified user id and invoke the downstream handler. -/
theorem c4_authMiddleware_spec
    (validate : String → GrpcResult ValidateTokenResponse) (authHeader : String) :
    (authHeader = "" →
      AuthMiddleware validate authHeader = .reject 401 "Authorization header required") ∧
    (authHeader ≠ "" → goHasPrefix authHeader bearerScheme = false →
      AuthMiddleware validate authHeader
        = .reject 401 "Authorization header must start with \x27Bearer \x27") ∧
    (authHeader ≠ "" → goHasPrefix authHeader bearerScheme = true →
      goTrimSpace (goDropChars authHeader bearerScheme.length) = "" →
      AuthMiddleware validate authHeader = .reject 401 "Token cannot be empty") ∧
    (authHeader ≠ "" → goHasPrefix authHeader bearerScheme = true →
      goTrimSpace (goDropChars authHeader bearerScheme.length) ≠ "" →
      validate (goTrimSpace (goDropChars authHeader bearerScheme.length))
          = .transportError →
      AuthMiddleware validate authHeader = .reject 500 "Failed to validate token") ∧
    (∀ resp : ValidateTokenResponse, authHeader ≠ "" →
      goHasPrefix authHeader bearerScheme = true →
      goTrimSpace (goDropChars authHeader bearerScheme.length) ≠ "" →
      validate (goTrimSpace (goDropChars authHeader bearerScheme.length)) = .ok resp →
      resp.valid = false →
      AuthMiddleware validate authHeader = .reject 401 ("Invalid token: " ++ resp.err)) ∧
    (∀ resp : ValidateTokenResponse, authHeader ≠ "" →
      goHasPrefix authHeader bearerScheme = true →
      goTrimSpace (goDropChars authHeader bearerScheme.length) ≠ "" →
      validate (goTrimSpace (goDropChars authHeader bearerScheme.length)) = .ok resp →
      resp.valid = true →
      AuthMiddleware validate authHeader = .forward resp.userId) := by
  refine ⟨?_, ?_, ?_, ?_, ?_, ?_⟩
  · intro h
    subst h
    rfl
  · intro hne hpre
    simp [AuthMiddleware, beq_iff_eq, hne, hpre]
  · intro hne hpre htok
    simp [AuthMiddleware, beq_iff_eq, hne, hpre, htok]
  · intro hne hpre htok hval
    simp [AuthMiddleware, beq_iff_eq, hne, hpre, htok, hval]
  · intro resp hne hpre htok hval hinvalid
    simp [AuthMiddleware, beq_iff_eq, hne, hpre, htok, hval, hinvalid]
  · intro resp hne hpre htok hval hvalid
    simp [AuthMiddleware, beq_iff_eq, hne, hpre, htok, hval, hvalid]

/-- Witness for C4: one concrete request per branch of the gate. -/
theorem c4_witness :
    AuthMiddleware (fun _ => .transportError) "" = .reject 401 "Authorization header required" ∧
    AuthMiddleware (fun _ => .transportError) "Basic abc"
      = .reject 401 "Authorization header must start with \x27Bearer \x27" ∧
    AuthMiddleware (fun _ => .transportError) "Bearer    "
      = .reject 401 "Token cannot be empty" ∧
    AuthMiddleware (fun _ => .transportError) "Bearer tok"
      = .reject 500 "Failed to validate token" ∧
    AuthMiddleware (fun _ => .ok { valid := false, userId := "", err := "Invalid token" })
      "Bearer tok" = .reject 401 ("Invalid token: " ++ "Invalid token") ∧
    AuthMiddleware (fun _ => .ok { valid := true, userId := "u1", err := "" })
      "Bearer tok" = .forward "u1" :=
  ⟨(c4_authMiddleware_spec (fun _ => .transportError) "").1 rfl,
   (c4_authMiddleware_spec (fun _ => .transportError) "Basic abc").2.1
     (by decide) (by decide),
   (c4_authMiddleware_spec (fun _ => .transportError) "Bearer    ").2.2.1
     (by decide) (by decide) (by decide),
   (c4_authMiddleware_spec (fun _ => .transportError) "Bearer tok").2.2.2.1
     (by decide) (by decide) (by decide) rfl,
   (c4_authMiddleware_spec (fun _ => .ok { valid := false, userId := "", err := "Invalid token" })
       "Bearer tok").2.2.2.2.1 { valid := false, userId := "", err := "Invalid token" }
     (by decide) (by decide) (by decide) rfl rfl,
   (c4_authMiddleware_spec (fun _ => .ok { valid := true, userId := "u1", err := "" })
       "Bearer tok").2.2.2.2.2 { valid := true, userId := "u1", err := "" }
     (by decide) (by decide) (by decide) rfl rfl⟩

/-- **C5, counterexample.** The claim "succeeds if and only if the two
identifiers are equal" fails at the concrete input where both identifiers
are the empty string: they are equal, yet `authorizeUserAccess` fails
(the empty attached identity is treated as "no authenticated user"). -/
theorem c5_counterexample :
    authorizeUserAccess "" "" = .error "no authenticated user found" := rfl

/-- **C5, amended.** `authorizeUserAccess` succeeds if and only if the
attached identity is non-empty and equals the requested resource-owner
id; a non-empty identity requesting another identity's resource fails
with the forbidden error (an empty attached identity instead fails as
unauthenticated, even for its "own" empty id). -/
theorem c5_authorizeUserAccess_amended (requestedID authenticatedID : String) :
    (authorizeUserAccess requestedID authenticatedID = .ok requestedID ↔
      authenticatedID ≠ "" ∧ requestedID = authenticatedID) ∧
    (authenticatedID ≠ "" → requestedID ≠ authenticatedID →
      authorizeUserAccess requestedID authenticatedID
        = .error "forbidden: cannot access other users\x27 data") := by
  constructor
  · constructor
    · intro h
      by_cases hauth : authenticatedID = ""
      · simp [authorizeUserAccess, hauth] at h
      · by_cases heq : requestedID = authenticatedID
        · exact ⟨hauth, heq⟩
        · simp [authorizeUserAccess, hauth, heq] at h
    · rintro ⟨hauth, heq⟩
      simp [authorizeUserAccess, hauth, heq]
  · intro hauth heq
    simp [authorizeUserAccess, hauth, heq]

/-- Witness for the amended C5: self-access passes, cross-access is
forbidden. -/
theorem c5_witness :
    authorizeUserAccess "u1" "u1" = .ok "u1" ∧
    authorizeUserAccess "u2" "u1"
      = .error "forbidden: cannot access other users\x27 data" :=
  ⟨(c5_authorizeUserAccess_amended "u1" "u1").1.mpr ⟨by decide, rfl⟩,
   (c5_authorizeUserAccess_amended "u2" "u1").2 (by decide) (by decide)⟩

theorem userHandler_createUser_error_unchanged
    (prepo : ProfileRepo) (userId email name phone : String)
    (h : (UserHandler.CreateUser prepo userId email name phone).1.error ≠ "") :
    (UserHandler.CreateUser prepo userId email name phone).2 = prepo := by
  by_cases hem : email = ""
  · simp [UserHandler.CreateUser, UserService.CreateUser, hem]
  · by_cases hnm : name = ""
    · simp [UserHandler.CreateUser, UserService.CreateUser, hem, hnm]
    · cases hfail : prepo.failing with
      | true =>
        simp [UserHandler.CreateUser, UserService.CreateUser, hem, hnm,
          ProfileRepo.CreateUser, hfail]
      | false =>
        exact absurd (by
          simp [UserHandler.CreateUser, UserService.CreateUser, hem, hnm,
            ProfileRepo.CreateUser, hfail]) h

/-- **C6.** When the Credential Store commit of `Register` succeeds but
the Identity Mirror call fails (transport failure, or an error reply from
the user service), the gRPC `Register` handler reports failure to the
caller, the freshly created Account is still in the Credential Store
(no rollback), and the Profile store is left unchanged, so no Profile
exists for the new Account. -/
theorem c6_mirror_failure_keeps_account
    (repo : Repo) (prepo : ProfileRepo) (mirrorTransportFails : Bool)
    (email password name : String)
    (hhealthy : repo.failing = false)
    (hfresh : repo.users.find? (fun u => u.email == email) = none)
    (hmirror : mirrorTransportFails = true ∨
      (UserHandler.CreateUser prepo (genId repo.nextId) email name "").1.error ≠ "") :
    ∃ (e : HandlerErr) (repo' : Repo),
      AuthHandler.Register repo prepo mirrorTransportFails email password name
        = (.error e, repo', prepo) ∧
      registeredUser repo.nextId email password name ∈ repo'.users := by
  obtain ⟨users, nextId, failing⟩ := repo
  simp only at hhealthy hfresh hmirror ⊢
  subst hhealthy
  have hreg : AuthService.Register ⟨users, nextId, false⟩ email password name
      = (.ok (genId nextId),
         ⟨users ++ [registeredUser nextId email password name], nextId + 1, false⟩) := by
    simp [AuthService.Register, Repo.GetUserByEmail, hfresh, Repo.CreateUser, registeredUser]
  cases mirrorTransportFails with
  | true =>
    refine ⟨.transport,
      ⟨users ++ [registeredUser nextId email password name], nextId + 1, false⟩, ?_, ?_⟩
    · simp [AuthHandler.Register, hreg]
    · simp
  | false =>
    have herr : (UserHandler.CreateUser prepo (genId nextId) email name "").1.error ≠ "" := by
      rcases hmirror with h | h
      · cases h
      · exact h
    have hunch := userHandler_createUser_error_unchanged prepo (genId nextId) email name "" herr
    rcases hres : UserHandler.CreateUser prepo (genId nextId) email name "" with ⟨resp, prepo'⟩
    rw [hres] at herr hunch
    simp only at herr hunch
    refine ⟨.msg resp.error,
      ⟨users ++ [registeredUser nextId email password name], nextId + 1, false⟩, ?_, ?_⟩
    · simp [AuthHandler.Register, hreg, hres, herr, hunch]
    · simp

/-- Witness for C6: fresh registration against an empty credential store
while the profile store is down. -/
theorem c6_witness :
    ∃ (e : HandlerErr) (repo' : Repo),
      AuthHandler.Register { users := [], nextId := 0, failing := false }
          { profiles := [], nextId := 0, failing := true } false
          "alice@example.com" "Secr3t" "Alice"
        = (.error e, repo', { profiles := [], nextId := 0, failing := true }) ∧
      registeredUser 0 "alice@example.com" "Secr3t" "Alice" ∈ repo'.users :=
  c6_mirror_failure_keeps_account
    { users := [], nextId := 0, failing := false }
    { profiles := [], nextId := 0, failing := true } false
    "alice@example.com" "Secr3t" "Alice" rfl rfl (Or.inr (by decide))

/-- **C7, counterexample.** The Credential Service operation
`AuthService.Register` performs no emptiness validation: with email,
password and name all empty it succeeds and creates an Account. -/
theorem c7_counterexample :
    AuthService.Register { users := [], nextId := 0, failing := false } "" "" ""
      = (.ok "uuid-0",
         { users := [{ id := "uuid-0", email := "",
                       password := bcryptGenerateFromPassword "", name := "" }],
           nextId := 1, failing := false }) := rfl

/-- **C7, amended.** Empty email, password or name is rejected with
status 400 at the HTTP gateway handler, before any service call, leaving
both stores unchanged; the emptiness validation lives only in that
layer, not in `AuthService.Register`. -/
theorem c7_http_empty_field_rejected
    (repo : Repo) (prepo : ProfileRepo) (mirrorTransportFails : Bool)
    (email password name : String)
    (hempty : email = "" ∨ password = "" ∨ name = "") :
    HttpAuth.Register repo prepo mirrorTransportFails email password name
      = (.err 400 "Email,name and password are required", repo, prepo) := by
  rcases hempty with h | h | h <;> simp [HttpAuth.Register, h]

/-- Witness for the amended C7: an empty password is rejected at the
gateway with the stores untouched. -/
theorem c7_witness :
    HttpAuth.Register { users := [], nextId := 0, failing := false }
        { profiles := [], nextId := 0, failing := false } false
        "alice@example.com" "" "Alice"
      = (.err 400 "Email,name and password are required",
         { users := [], nextId := 0, failing := false },
         { profiles := [], nextId := 0, failing := false }) :=
  c7_http_empty_field_rejected
    { users := [], nextId := 0, failing := false }
    { profiles := [], nextId := 0, failing := false } false
    "alice@example.com" "" "Alice" (Or.inr (Or.inl rfl))

/-- **C8, counterexample.** A successful login over HTTP returns 200, but
the body's `user_id` and `name` are the empty string — not the
authenticated account's id `u1` and name `Alice` as the claim states. -/
theorem c8_counterexample :
    HttpAuth.Login "s" 0
        { users := [{ id := "u1", email := "alice@example.com",
                      password := bcryptGenerateFromPassword "pw", name := "Alice" }],
          nextId := 1, failing := false }
        "alice@example.com" "pw"
      = .ok 200 { token := .signed ⟨some "u1", 0 + 24 * 3600⟩
                    (hmacSign ⟨some "u1", 0 + 24 * 3600⟩ "s"),
                  userId := "", name := "" } ∧
    ("" : String) ≠ "u1" ∧ ("" : String) ≠ "Alice" :=
  ⟨rfl, by decide, by decide⟩

/-- **C8, amended.** A successful POST /auth/login returns status 200
with a body carrying the minted token, but the `user_id` and `name`
fields are always the empty string: the gRPC auth handler never
populates them from the account. -/
theorem c8_login_response_token_only
    (jwtSecret : String) (now : Nat) (repo : Repo) (email password : String) (tok : Token)
    (hemail : email ≠ "") (hpassword : password ≠ "")
    (hlogin : AuthService.Login jwtSecret now repo email password = .ok tok) :
    HttpAuth.Login jwtSecret now repo email password
      = .ok 200 { token := tok, userId := "", name := "" } := by
  simp [HttpAuth.Login, AuthHandler.Login, hemail, hpassword, hlogin]

/-- Witness for the amended C8 at a concrete successful login. -/
theorem c8_witness :
    HttpAuth.Login "s" 0
        { users := [{ id := "u1", email := "alice@example.com",
                      password := bcryptGenerateFromPassword "pw", name := "Alice" }],
          nextId := 1, failing := false }
        "alice@example.com" "pw"
      = .ok 200 { token := .signed ⟨some "u1", 0 + 24 * 3600⟩
                    (hmacSign ⟨some "u1", 0 + 24 * 3600⟩ "s"),
                  userId := "", name := "" } :=
  c8_login_response_token_only "s" 0
    { users := [{ id := "u1", email := "alice@example.com",
                  password := bcryptGenerateFromPassword "pw", name := "Alice" }],
      nextId := 1, failing := false }
    "alice@example.com" "pw"
    (.signed ⟨some "u1", 0 + 24 * 3600⟩ (hmacSign ⟨some "u1", 0 + 24 * 3600⟩ "s"))
    (by decide) (by decide) rfl

/-- **C9, counterexample.** With the Credential Store unreachable,
`Login` does not surface an internal store error: it returns the same
`invalid credentials` authentication error (and that error differs from
the store-error kind the service uses elsewhere). -/
theorem c9_counterexample :
    AuthService.Login "s" 0 { users := [], nextId := 0, failing := true }
        "alice@example.com" "pw" = .error (.msg "invalid credentials") ∧
    AuthErr.msg "invalid credentials" ≠ AuthErr.storeError :=
  ⟨rfl, by decide⟩

/-- **C9, amended.** When the Credential Store read in `Login` fails, the
failure is conflated with the authentication failure: `Login` returns
exactly the `invalid credentials` error it returns for an unknown email,
not a distinct internal/dependency error. -/
theorem c9_store_failure_conflated
    (jwtSecret : String) (now : Nat) (repo : Repo) (email password : String)
    (hfail : repo.failing = true) :
    AuthService.Login jwtSecret now repo email password
      = .error (.msg "invalid credentials") := by
  simp [AuthService.Login, Repo.GetUserByEmail, hfail]

/-- Witness for the amended C9: login against a down store. -/
theorem c9_witness :
    AuthService.Login "s" 0 { users := [], nextId := 0, failing := true }
        "alice@example.com" "pw" = .error (.msg "invalid credentials") :=
  c9_store_failure_conflated "s" 0 { users := [], nextId := 0, failing := true }
    "alice@example.com" "pw" rfl

/-- **C10.** For a stored live profile, the HTTP update path (which
requires only one of name/phone to be supplied) unconditionally
overwrites both the stored name and phone with the request values, so a
request supplying only one field resets the other to the empty string;
the response body carries the new values. -/
theorem c10_updateUser_overwrites_both
    (prepo : ProfileRepo) (p : Profile) (requestedID name phone : String)
    (hid : requestedID ≠ "")
    (hhealthy : prepo.failing = false)
    (hfound : prepo.profiles.find? (fun q => q.id == requestedID && !q.deleted) = some p)
    (hfields : ¬(name = "" ∧ phone = "")) :
    ∃ prepo' : ProfileRepo,
      HttpUser.UpdateUser prepo false requestedID requestedID name phone
        = (.ok 200 { id := p.id, email := p.email, name := name, phone := phone }, prepo') ∧
      ∀ q ∈ prepo'.profiles, q.id = p.id → q.name = name ∧ q.phone = phone := by
  refine ⟨{ prepo with
    profiles := prepo.profiles.map
      (fun q => if q.id == p.id then { q with name := name, phone := phone } else q) },
    ?_, ?_⟩
  · simp [HttpUser.UpdateUser, authorizeUserAccess, hid, hfields,
      UserHandler.UpdateUser, UserService.UpdateUser, ProfileRepo.GetUserByID,
      hhealthy, hfound, ProfileRepo.UpdateUser]
  · intro q hq hqid
    rw [List.mem_map] at hq
    obtain ⟨r, _, hfr⟩ := hq
    by_cases hrid : r.id == p.id
    · rw [if_pos hrid] at hfr
      subst hfr
      exact ⟨rfl, rfl⟩
    · rw [if_neg hrid] at hfr
      subst hfr
      exact absurd hqid (by simpa using hrid)

/-- Witness for C10: an update supplying only a name resets the stored
phone to the empty string. -/
theorem c10_witness :
    ∃ prepo' : ProfileRepo,
      HttpUser.UpdateUser
          { profiles := [{ id := "u1", email := "alice@example.com", name := "Alice",
                           phone := "123", deleted := false }],
            nextId := 1, failing := false } false "u1" "u1" "Bob" ""
        = (.ok 200 { id := "u1", email := "alice@example.com", name := "Bob", phone := "" },
           prepo') ∧
      ∀ q ∈ prepo'.profiles, q.id = "u1" → q.name = "Bob" ∧ q.phone = "" :=
  c10_updateUser_overwrites_both
    { profiles := [{ id := "u1", email := "alice@example.com", name := "Alice",
                     phone := "123", deleted := false }],
      nextId := 1, failing := false }
    { id := "u1", email := "alice@example.com", name := "Alice",
      phone := "123", deleted := false }
    "u1" "Bob" "" (by decide) rfl rfl (by simp)
